import Mathlib

/-!
# Verification of the fraud-detection pipeline (shallow embedding)

This file embeds the scoring core of the fraud-detection backend in Lean 4
and proves properties of the embedded functions.  All numeric state is
modelled over `ℚ` (the source uses Python floats; every constant in play is
decimal, and the properties proved are exact-arithmetic properties of the
formulas).  Transcendental subroutines (`math.sqrt` inside `np.std`,
`math.log` inside the ASN normalisers, the haversine distance) are abstracted
as function parameters or as pre-computed rational inputs, as noted at each
definition.

Embedded components:
* `app/config.py`                         → namespace `settings`
* `app/core/risk_engine.py`               → `buildReason`, `scoreTransactionCore`
* `app/core/worker_pool.py`               → `workerProcessMessage`, `workerWriteBackStatus`
* `app/detection/mule_detection.py`       → `muleEvaluate`
* `app/features/behavioral.py`            → `behavioralCompute` and helpers
* `app/features/asn_intelligence.py`      → `asnRiskStep8`, `modeAsn`, `asnDriftOf`
* `app/streaming/stream_adapter.py`       → `adapterHandleMessage`
-/

namespace Fraud

/-! ## Configuration (`app/config.py`, class `Settings`) -/

namespace settings

def WEIGHT_GRAPH : ℚ := 0.30
def WEIGHT_BEHAVIORAL : ℚ := 0.25
def WEIGHT_DEVICE : ℚ := 0.20
def WEIGHT_DEAD_ACCOUNT : ℚ := 0.15
def WEIGHT_VELOCITY : ℚ := 0.10

def HIGH_RISK_THRESHOLD : ℚ := 70.0
def MEDIUM_RISK_THRESHOLD : ℚ := 40.0

def DEVICE_ACCOUNT_THRESHOLD : ℕ := 5
def VELOCITY_WINDOW_SEC : ℚ := 60
def BEHAVIORAL_HISTORY_COUNT : ℕ := 25
def PASS_THROUGH_RATIO_THRESHOLD : ℚ := 0.80
def BURST_TX_THRESHOLD : ℕ := 10
def IMPOSSIBLE_TRAVEL_KMH : ℚ := 250.0
def NIGHT_START_HOUR : ℕ := 23
def NIGHT_END_HOUR : ℕ := 5

def IP_ROTATION_WINDOW_HOURS : ℕ := 24
def IP_ROTATION_MAX_UNIQUE : ℕ := 5
def IP_ROTATION_PENALTY : ℚ := 15.0

def FIXED_AMOUNT_TOLERANCE : ℚ := 0.01
def FIXED_AMOUNT_MIN_COUNT : ℕ := 3
def FIXED_AMOUNT_PENALTY : ℚ := 10.0

def CIRCADIAN_ANOMALY_PENALTY : ℚ := 20.0
def CIRCADIAN_NEW_DEVICE_PENALTY : ℚ := 35.0

def TX_IDENTICALITY_WINDOW_HOURS : ℕ := 1
def TX_IDENTICALITY_MIN_COUNT : ℕ := 3
def TX_IDENTICALITY_PENALTY : ℚ := 30.0

end settings

/-! ## Shared helpers -/

/-- Python's `round` (banker's rounding, round-half-to-even) on a rational. -/
def roundHalfEven (q : ℚ) : ℤ :=
  let f : ℤ := ⌊q⌋
  let r : ℚ := q - f
  if r < 1/2 then f
  else if 1/2 < r then f + 1
  else if f % 2 = 0 then f else f + 1

/-- Python `round(x, 2)`. -/
def pyRound2 (q : ℚ) : ℚ := (roundHalfEven (q * 100) : ℚ) / 100

/-- Python `round(x, 3)`. -/
def pyRound3 (q : ℚ) : ℚ := (roundHalfEven (q * 1000) : ℚ) / 1000

/-- Python `round(x, 4)`. -/
def pyRound4 (q : ℚ) : ℚ := (roundHalfEven (q * 10000) : ℚ) / 10000

/-- Python truthiness-based `a or b` for an optional float
(`None` and `0.0` are falsy). -/
def pyOrQ (a : Option ℚ) (b : ℚ) : ℚ :=
  match a with
  | some x => if x = 0 then b else x
  | none => b

/-- Python truthiness-based `a or b` for an optional int. -/
def pyOrN (a : Option ℕ) (b : ℕ) : ℕ :=
  match a with
  | some x => if x = 0 then b else x
  | none => b

/-- Order-preserving de-duplication, Python's `list(dict.fromkeys(flags))`
(keeps the first occurrence of each element). -/
def pyDedup (l : List String) : List String :=
  l.foldl (fun acc s => if acc.contains s then acc else acc ++ [s]) []

/-! ## Transaction status and risk level (`app/models/transaction.py`) -/

inductive TransactionStatus where
  | PENDING | COMPLETED | FLAGGED | BLOCKED
deriving DecidableEq, Repr

inductive RiskLevel where
  | LOW | MEDIUM | HIGH | CRITICAL
deriving DecidableEq, Repr

/-- `RiskEngine.score_transaction` step 4 (risk_engine.py lines 223-228):
`HIGH` when `fused ≥ HIGH_RISK_THRESHOLD`, else `MEDIUM` when
`fused ≥ MEDIUM_RISK_THRESHOLD`, else `LOW`. -/
def riskLevelOf (fused : ℚ) : RiskLevel :=
  if settings.HIGH_RISK_THRESHOLD ≤ fused then .HIGH
  else if settings.MEDIUM_RISK_THRESHOLD ≤ fused then .MEDIUM
  else .LOW

/-- `RiskEngine.score_transaction` step 8 (risk_engine.py lines 271-275):
the engine's own persist step writes `FLAGGED` when the level is `HIGH` or
`CRITICAL`, and `COMPLETED` otherwise. -/
def enginePersistStatus (level : RiskLevel) : TransactionStatus :=
  if level = .HIGH ∨ level = .CRITICAL then .FLAGGED else .COMPLETED

/-- `WorkerPool._process_message` step 2b (worker_pool.py lines 383-385):
`BLOCKED` when the scored risk is `≥ HIGH_RISK_THRESHOLD`, else `FLAGGED`
when `≥ MEDIUM_RISK_THRESHOLD`, else `COMPLETED`. -/
def workerWriteBackStatus (riskScore : ℚ) : TransactionStatus :=
  if settings.HIGH_RISK_THRESHOLD ≤ riskScore then .BLOCKED
  else if settings.MEDIUM_RISK_THRESHOLD ≤ riskScore then .FLAGGED
  else .COMPLETED

/-- Modelled from the spec: the threshold mapping the specification demands of
an emitted status — `BLOCKED` for `R ≥ 70`, `FLAGGED` for `40 ≤ R < 70`,
`COMPLETED` for `R < 40`.  Used to compare the code's two status writers
against the specified mapping. -/
def specStatusOf (riskScore : ℚ) : TransactionStatus :=
  if settings.HIGH_RISK_THRESHOLD ≤ riskScore then .BLOCKED
  else if settings.MEDIUM_RISK_THRESHOLD ≤ riskScore then .FLAGGED
  else .COMPLETED

/-! ## Feature-extractor outputs

Each extractor returns a Python dict; the engine, the mule classifier and the
reason builder read a fixed set of keys from each (via `dict.get` with
defaults).  The structures below carry those keys with the dict defaults as
field defaults; an absent key in the source dict corresponds to the default
field value here.  The behavioural dict `asn_class` key is named `asn_kind`
here.  Flag strings keep the English skeleton of the source f-strings, with
numeric format specifiers rendered through `toString`. -/

/-- Behavioural feature dict (behavioral.py lines 294-325). -/
structure BehavF where
  amount_zscore : ℚ := 0
  rolling_mean : ℚ := 0
  rolling_std : ℚ := 0
  time_since_last_tx : ℚ := 0
  velocity_score : ℚ := 0
  geo_distance_km : ℚ := 0
  impossible_travel : Bool := false
  is_night : Bool := false
  spike_flag : Bool := false
  dormant_burst : Bool := false
  iqr_outlier_flag : Bool := false
  ip_risk_score : ℚ := 0
  asn_risk : ℚ := 0
  asn_risk_scaled : ℚ := 0
  asn_kind : String := "UNKNOWN"
  asn_country : String := ""
  foreign_flag : ℕ := 0
  asn_drift : ℕ := 0
  asn_entropy : ℚ := 0
  asn_density : ℚ := 0
  asn_base : ℚ := 0
  ip_rotation_count : ℕ := 0
  ip_rotation_flag : Bool := false
  fixed_amount_flag : Bool := false
  circadian_anomaly : Bool := false
  circadian_score : ℚ := 0
  tx_identicality_flag : Bool := false
  tx_identicality_count : ℕ := 0
  risk : ℚ := 0
  flags : List String := []
deriving Repr, DecidableEq

/-- Dead-account feature dict (keys read by the engine, the mule classifier
and the reason builder). -/
structure DeadF where
  risk : ℚ := 0
  is_dormant : Bool := false
  is_first_strike : Bool := false
  days_inactive : Option ℚ := none
  days_slept : Option ℚ := none
  pass_through_ratio : ℚ := 0
  sleep_flash_flag : Bool := false
  sleep_flash_ratio : ℚ := 0
  flags : List String := []
deriving Repr, DecidableEq

/-- Device feature dict (keys read downstream). -/
structure DeviceF where
  risk : ℚ := 0
  account_count : ℕ := 0
  new_device_flag : Bool := false
  cap_mask_anomaly : ℕ := 0
  new_device_high_mpin : Bool := false
  device_multi_user_flag : Bool := false
  device_multi_user_count : ℕ := 0
  flags : List String := []
deriving Repr, DecidableEq

/-- Graph-intelligence feature dict (keys read downstream). -/
structure GraphF where
  risk : ℚ := 0
  community_risk : ℚ := 0
  community_id : Option ℕ := none
  betweenness : ℚ := 0
  flags : List String := []
deriving Repr, DecidableEq

/-- Velocity feature dict (keys read downstream). -/
structure VelF where
  risk : ℚ := 0
  tx_per_min : ℚ := 0
  outflow_inflow_ratio : ℚ := 0
  flags : List String := []
deriving Repr, DecidableEq

/-! ## Mule classifier (`app/detection/mule_detection.py`) -/

namespace mule

def MULE_RISK_THRESHOLD : ℚ := 65
def PASSTHROUGH_THRESHOLD : ℚ := 0.75
def DEVICE_SHARE_THRESHOLD : ℕ := 3

end mule

structure MuleResult where
  is_mule : Bool
  confidence : ℚ
  reasons : List String
deriving Repr, DecidableEq

/-- Python `int(x)` (truncation toward zero). -/
def pyInt (q : ℚ) : ℤ := if q < 0 then -(⌊-q⌋) else ⌊q⌋

/-- The accumulated mule score before clamping: the sixteen weighted hits of
`MuleDetector.evaluate` (mule_detection.py lines 54-158), written as one sum
(the source accumulates them with `score += …`). -/
def muleScoreRaw (behavioral : BehavF) (dead_account : DeadF) (device : DeviceF)
    (graph : GraphF) (velocity : VelF) : ℚ :=
  let pt_ratio := velocity.outflow_inflow_ratio
  (if dead_account.is_first_strike then (0.30 : ℚ)
    else if dead_account.is_dormant ∧ 40 < dead_account.risk then 0.25 else 0)
  + (if dead_account.sleep_flash_flag then (0.25 : ℚ) else 0)
  + (if mule.PASSTHROUGH_THRESHOLD < pt_ratio then (0.20 : ℚ) else 0)
  + (if mule.DEVICE_SHARE_THRESHOLD ≤ device.account_count then (0.15 : ℚ) else 0)
  + (if device.device_multi_user_flag then (0.20 : ℚ) else 0)
  + (if 50 < graph.community_risk then (0.15 : ℚ) else 0)
  + (if 5 < velocity.tx_per_min ∧ (0.6 : ℚ) < pt_ratio then (0.10 : ℚ) else 0)
  + (if behavioral.impossible_travel then (0.10 : ℚ) else 0)
  + (if behavioral.spike_flag then (0.05 : ℚ) else 0)
  + (if device.new_device_high_mpin then (0.15 : ℚ) else 0)
  + (if 2 ≤ device.cap_mask_anomaly then (0.08 : ℚ) else 0)
  + (if device.new_device_flag ∧ ¬device.new_device_high_mpin then (0.05 : ℚ) else 0)
  + (if behavioral.ip_rotation_flag then (0.08 : ℚ) else 0)
  + (if behavioral.fixed_amount_flag then (0.08 : ℚ) else 0)
  + (if behavioral.circadian_anomaly then (0.10 : ℚ) else 0)
  + (if behavioral.tx_identicality_flag then (0.15 : ℚ) else 0)

/-- `MuleDetector.evaluate` (mule_detection.py lines 38-167): accumulates
weighted hits into `score`, clamps to 1, declares a mule when
`score ≥ 0.5 or fused_risk ≥ 65`, reports `confidence = round(score, 3)`. -/
def muleEvaluate (behavioral : BehavF) (dead_account : DeadF) (device : DeviceF)
    (graph : GraphF) (velocity : VelF) (fused_risk : ℚ) : MuleResult :=
  let pt_ratio := velocity.outflow_inflow_ratio
  -- first-strike dormant activation
  let r1 : List String :=
    if dead_account.is_first_strike then
      let days := pyOrQ dead_account.days_slept ((dead_account.days_inactive).getD 0)
      ["First-strike: dormant " ++ toString (pyInt days) ++ "d → suddenly active"]
    else if dead_account.is_dormant ∧ 40 < dead_account.risk then
      ["Dormant account activated with suspicious inflow"] else []
  -- sleep-and-flash mule
  let r2 : List String := if dead_account.sleep_flash_flag then
      ["Sleep-and-flash mule: amount " ++ toString dead_account.sleep_flash_ratio
        ++ "x historical avg, dormant >30d"] else []
  -- high pass-through (relay pattern)
  let r3 : List String := if mule.PASSTHROUGH_THRESHOLD < pt_ratio then
      ["High pass-through ratio (" ++ toString pt_ratio ++ ")"] else []
  -- shared device
  let r4 : List String := if mule.DEVICE_SHARE_THRESHOLD ≤ device.account_count then
      ["Device shared across " ++ toString device.account_count ++ " accounts"] else []
  -- SIM-swap multi-user device
  let r5 : List String := if device.device_multi_user_flag then
      ["SIM-swap: " ++ toString device.device_multi_user_count
        ++ " users on same device in 24h"] else []
  -- graph cluster membership
  let r6 : List String := if 50 < graph.community_risk then
      ["Member of high-risk cluster (risk=" ++ toString graph.community_risk ++ ")"] else []
  -- relay mule flag from velocity
  let r7 : List String := if 5 < velocity.tx_per_min ∧ (0.6 : ℚ) < pt_ratio then
      ["Relay pattern: " ++ toString velocity.tx_per_min ++ " tx/min, ratio="
        ++ toString pt_ratio] else []
  -- behavioural anomaly
  let r8 : List String := if behavioral.impossible_travel then
      ["Impossible travel detected"] else []
  let r9 : List String := if behavioral.spike_flag then
      ["Amount spike vs historical baseline"] else []
  -- new device + high amount + MPIN compound
  let r10 : List String := if device.new_device_high_mpin then
      ["New device + high amount + MPIN authentication"] else []
  -- capability mask anomaly
  let r11 : List String := if 2 ≤ device.cap_mask_anomaly then
      ["Device capability mask changed (Hamming=" ++ toString device.cap_mask_anomaly
        ++ ")"] else []
  -- new/unknown device
  let r12 : List String := if device.new_device_flag ∧ ¬device.new_device_high_mpin then
      ["Transaction from new/unseen device"] else []
  -- IP rotation pattern
  let r13 : List String := if behavioral.ip_rotation_flag then
      ["IP rotation: " ++ toString behavioral.ip_rotation_count ++ " unique IPs in 24h"]
    else []
  -- fixed-amount pattern (structuring)
  let r14 : List String := if behavioral.fixed_amount_flag then
      ["Fixed-amount pattern (possible structuring)"] else []
  -- circadian anomaly
  let r15 : List String := if behavioral.circadian_anomaly then
      ["Transaction at unusual hour for user pattern"] else []
  -- TX identicality index
  let r16 : List String := if behavioral.tx_identicality_flag then
      ["TX identicality: " ++ toString behavioral.tx_identicality_count
        ++ " identical-amount transfers to same receiver in 1h"] else []
  let score0 : ℚ := muleScoreRaw behavioral dead_account device graph velocity
  let score : ℚ := min score0 1.0
  let is_mule : Bool := decide ((0.5 : ℚ) ≤ score) || decide (mule.MULE_RISK_THRESHOLD ≤ fused_risk)
  { is_mule := is_mule
    confidence := pyRound3 score
    reasons := r1 ++ r2 ++ r3 ++ r4 ++ r5 ++ r6 ++ r7 ++ r8 ++ r9 ++ r10 ++ r11
      ++ r12 ++ r13 ++ r14 ++ r15 ++ r16 }

/-! ## Weighted fusion (`RiskEngine.score_transaction` step 3,
risk_engine.py lines 213-220) -/

/-- `R = 0.30·S_graph + 0.25·S_beh + 0.20·S_dev + 0.15·S_dead + 0.10·S_vel`,
then `fused = min(fused, 100.0)`. -/
def fuseRiskScores (sGraph sBehavioral sDevice sDead sVelocity : ℚ) : ℚ :=
  min (settings.WEIGHT_GRAPH * sGraph
      + settings.WEIGHT_BEHAVIORAL * sBehavioral
      + settings.WEIGHT_DEVICE * sDevice
      + settings.WEIGHT_DEAD_ACCOUNT * sDead
      + settings.WEIGHT_VELOCITY * sVelocity) 100.0

/-! ## Explainability (`_build_reason`, risk_engine.py lines 41-129) -/

/-- The list `parts` assembled by `_build_reason`: one entry per triggered
signal, in source order. -/
def buildReasonParts (behav : BehavF) (dead : DeadF) (device : DeviceF)
    (graph : GraphF) (vel : VelF) : List String :=
  -- Dead account / dormant
  (if dead.is_dormant ∨ dead.is_first_strike then
    let days := pyOrQ dead.days_inactive ((dead.days_slept).getD 0)
    ["Account activated after " ++ toString (pyInt days) ++ " days of inactivity"]
   else [])
  ++ (if settings.PASS_THROUGH_RATIO_THRESHOLD < dead.pass_through_ratio then
    ["Pass-through ratio " ++ toString dead.pass_through_ratio ++ " exceeds threshold"]
   else [])
  ++ (if dead.sleep_flash_flag then
    ["Sleep-and-flash mule: amount " ++ toString dead.sleep_flash_ratio
      ++ "x above historical avg, dormant >30d"] else [])
  -- Graph intelligence
  ++ (if 50 < graph.community_risk then
    ["Community #" ++ ((graph.community_id).map toString).getD "?" ++ " has "
      ++ toString graph.community_risk ++ "% fraud density"] else [])
  ++ (if (0.01 : ℚ) < graph.betweenness then
    ["High betweenness centrality (money router)"] else [])
  -- Device risk (v3 signals)
  ++ (if settings.DEVICE_ACCOUNT_THRESHOLD ≤ device.account_count then
    ["Shared device with " ++ toString device.account_count ++ " other accounts"]
   else [])
  ++ (if device.new_device_flag then ["Transaction from a new/unseen device"] else [])
  ++ (if 0 < device.cap_mask_anomaly then
    ["Device capability mask changed unexpectedly"] else [])
  ++ (if device.new_device_high_mpin then
    ["New device + high amount + MPIN authentication"] else [])
  ++ (if device.device_multi_user_flag then
    ["SIM-swap: " ++ toString device.device_multi_user_count
      ++ " users on same device in 24h"] else [])
  -- Behavioral
  ++ (if behav.impossible_travel then
    ["Impossible travel detected between consecutive transactions"] else [])
  ++ (if 3 < behav.amount_zscore then
    ["Amount z-score " ++ toString behav.amount_zscore ++ "x above user baseline"]
   else [])
  ++ (if behav.is_night then ["Unusual night-time transaction"] else [])
  ++ (if (0.5 : ℚ) ≤ behav.asn_risk then
    ["High ASN risk: " ++ behav.asn_kind ++ " network (country: "
      ++ behav.asn_country ++ ")"] else [])
  ++ (if behav.foreign_flag ≠ 0 then
    ["Foreign IP origin: " ++ behav.asn_country] else [])
  ++ (if behav.asn_drift ≠ 0 then ["ASN drift: unusual network for this user"] else [])
  ++ (if behav.ip_rotation_flag then
    ["IP rotation: " ++ toString behav.ip_rotation_count ++ " unique IPs in 24h"]
   else [])
  ++ (if behav.fixed_amount_flag then
    ["Fixed-amount pattern: repeated identical transfers"] else [])
  ++ (if behav.circadian_anomaly then
    ["Circadian anomaly: transaction at unusual hour for this user"] else [])
  ++ (if behav.tx_identicality_flag then
    ["TX identicality: " ++ toString behav.tx_identicality_count
      ++ " identical-amount transfers to same receiver"] else [])
  -- Velocity
  ++ (if 5 < vel.tx_per_min then
    ["Velocity: " ++ toString vel.tx_per_min ++ " tx/min in last window"] else [])
  ++ (if settings.PASS_THROUGH_RATIO_THRESHOLD < vel.outflow_inflow_ratio then
    ["Rapid fund relay pattern"] else [])

/-- `_build_reason` final assembly (risk_engine.py lines 123-129): with no
parts, return the fixed no-indicator string below threshold, or append the
combined-indicators part above it; otherwise join parts with `". "` and
append a final period.  The `flags` argument is accepted and unused, as in
the source. -/
def buildReason (behav : BehavF) (dead : DeadF) (device : DeviceF)
    (graph : GraphF) (vel : VelF) (fused : ℚ) (flags : List String) : String :=
  let _ := flags
  let parts := buildReasonParts behav dead device graph vel
  if parts = [] then
    if settings.HIGH_RISK_THRESHOLD ≤ fused then
      String.intercalate ". " ["Multiple minor indicators combined above threshold"] ++ "."
    else "No significant risk indicators"
  else String.intercalate ". " parts ++ "."

/-! ## Risk-fusion engine core (`RiskEngine.score_transaction` steps 2-8,
risk_engine.py lines 199-305)

The five extractor outputs are inputs here (the concurrency of step 1 is not
modelled); `collusiveFlags` stands for `collusive_detector.get_user_flags`.
The cluster-id lookup and the Neo4j persist I/O are not modelled beyond the
status value the persist step writes. -/

structure EngineOutcome where
  sBehavioral : ℚ
  fused : ℚ
  risk_score : ℚ
  level : RiskLevel
  status : TransactionStatus
  flags : List String
  reason : String
  muleRes : MuleResult
deriving Repr, DecidableEq

def scoreTransactionCore (behav : BehavF) (dead : DeadF) (device : DeviceF)
    (graph : GraphF) (vel : VelF) (collusiveFlags : List String) : EngineOutcome :=
  -- 2. Extract sub-scores
  let s_behavioral0 := behav.risk
  let s_dead := dead.risk
  let s_device := device.risk
  let s_graph := graph.risk
  let s_velocity := vel.risk
  -- 2b. Circadian + New Device compound boost
  let s_behavioral :=
    if behav.circadian_anomaly ∧ device.new_device_flag then
      min (s_behavioral0
        + (settings.CIRCADIAN_NEW_DEVICE_PENALTY - settings.CIRCADIAN_ANOMALY_PENALTY))
        100.0
    else s_behavioral0
  -- 3. Weighted fusion
  let fused := fuseRiskScores s_graph s_behavioral s_device s_dead s_velocity
  -- 4. Risk level
  let risk_level := riskLevelOf fused
  -- 5. Collect flags (extractors, collusive cache, mule classifier), dedup
  let flags0 := behav.flags ++ dead.flags ++ device.flags ++ graph.flags
    ++ vel.flags ++ collusiveFlags
  let muleRes := muleEvaluate behav dead device graph vel fused
  let flags1 :=
    if muleRes.is_mule then
      flags0 ++ (("MULE SUSPECTED (confidence=" ++ toString muleRes.confidence ++ ")")
        :: muleRes.reasons)
    else flags0
  let flags := pyDedup flags1
  -- 6. Explainability reason
  let reason := buildReason behav dead device graph vel fused flags
  -- 8. Status written by the engine's own persist step
  { sBehavioral := s_behavioral
    fused := fused
    risk_score := pyRound2 fused
    level := risk_level
    status := enginePersistStatus risk_level
    flags := flags
    reason := reason
    muleRes := muleRes }

/-! ## ASN intelligence (`app/features/asn_intelligence.py`, steps 5-8)

`compute_asn_risk` composes MMDB lookup output with graph-read statistics.
The logarithmic quantities are abstracted as rational inputs:
`densityRatio` stands for `log(1+accountsOnASN)/log(1+1000)` and
`entropyRatio` for `H/2.5` (both are the exact arguments of the `min` in
lines 420-421); the formula and clamping of lines 423-433 are modelled
exactly. -/

/-- Python `max(asn_counts, key=asn_counts.get)` over the insertion-ordered
dict of `(asn, usage_count)` pairs: the first key of maximal count. -/
def modeAsn (counts : List (ℕ × ℕ)) : ℕ :=
  match counts with
  | [] => 0
  | c :: rest => (rest.foldl (fun best p => if best.2 < p.2 then p else best) c).1

/-- Step 6 (asn_intelligence.py lines 402-405): `asn_drift` stays `0` when
the history is empty, otherwise it is `0` iff the current ASN equals the
mode of the history. -/
def asnDriftOf (current : ℕ) (counts : List (ℕ × ℕ)) : ℕ :=
  if counts = [] then 0
  else if current = modeAsn counts then 0 else 1

structure AsnStep8 where
  asn_risk : ℚ
  asn_risk_scaled : ℚ
deriving Repr, DecidableEq

/-- Step 8 (asn_intelligence.py lines 420-433). -/
def asnRiskStep8 (asn_base densityRatio entropyRatio : ℚ)
    (asn_drift foreign_flag : ℕ) : AsnStep8 :=
  let density_norm := min densityRatio 1.0
  let entropy_norm := min entropyRatio 1.0
  let raw_risk := 0.4 * asn_base + 0.3 * density_norm + 0.2 * (asn_drift : ℚ)
    + 0.2 * (foreign_flag : ℚ) + 0.1 * entropy_norm
  let asn_risk := min (max raw_risk 0.0) 1.0
  { asn_risk := asn_risk, asn_risk_scaled := asn_risk * 20.0 }

/-- Modelled from the spec (§4.3): `asnRisk = clamp(0.4·base
+ 0.3·min(log(1+accountsOnASN)/log(1+1000), 1) + 0.2·drift + 0.2·foreignFlag
+ 0.1·min(H/2.5, 1), 0, 1)`, with the same abstraction of the two
logarithmic ratios. -/
def specAsnRisk (asn_base densityRatio entropyRatio : ℚ)
    (asn_drift foreign_flag : ℕ) : ℚ :=
  min (max (0.4 * asn_base + 0.3 * min densityRatio 1 + 0.2 * (asn_drift : ℚ)
    + 0.2 * (foreign_flag : ℚ) + 0.1 * min entropyRatio 1) 0) 1

/-! ## Behavioural extractor (`app/features/behavioral.py`)

`BehavioralFeatureExtractor.compute` is modelled as a function of the
transaction inputs plus the results of its six Neo4j reads.  The two reads
the source performs *without* a `try/except` (transaction history, user
profile, lines 95-101) are `Except` arguments that the model propagates; the
four wrapped reads (IP rotation, recent amounts, hour distribution,
identicality; lines 184-249) are `Except` arguments whose failure defaults
the corresponding signal.  `compute_asn_risk` absorbs its own read failures
internally, so its output is a plain input (`BehavInputs.asnResult`,
`none` when no IP address was given).  `np.std`'s square root and the
haversine distance are abstracted as the function parameters `sqrtQ` and
`haversineQ`. -/

/-- Output of `compute_asn_risk` as consumed by the behavioural extractor. -/
structure AsnFeatures where
  asn : ℕ := 0
  org_name : String := ""
  country : String := ""
  asn_kind : String := "UNKNOWN"
  foreign_flag : ℕ := 0
  asn_base : ℚ := 0
  asn_density : ℚ := 0
  asn_drift : ℕ := 0
  asn_entropy : ℚ := 0
  asn_risk : ℚ := 0
  asn_risk_scaled : ℚ := 0
deriving Repr, DecidableEq

/-- A row of `QUERY_USER_TX_HISTORY`. -/
structure HistRow where
  amount : Option ℚ := none
  timestamp : Option ℚ := none
deriving Repr, DecidableEq

/-- A row of `QUERY_USER_PROFILE`. -/
structure ProfileRow where
  avg_tx_amount : Option ℚ := none
  std_tx_amount : Option ℚ := none
  is_dormant : Bool := false
  last_lat : Option ℚ := none
  last_lon : Option ℚ := none
deriving Repr, DecidableEq

/-- A row of `QUERY_IP_ROTATION`. -/
structure IpRotRow where
  unique_ip_count : Option ℕ := none
deriving Repr, DecidableEq

/-- A row of `QUERY_RECENT_AMOUNTS`. -/
structure AmtRow where
  amount : Option ℚ := none
deriving Repr, DecidableEq

/-- A row of `QUERY_USER_HOUR_DISTRIBUTION`. -/
structure HourRow where
  hour : ℕ := 0
  cnt : ℕ := 0
deriving Repr, DecidableEq

/-- A row of `QUERY_IDENTICAL_TX_RECEIVER`. -/
structure IdentRow where
  identical_count : Option ℕ := none
deriving Repr, DecidableEq

/-- Per-transaction inputs of `BehavioralFeatureExtractor.compute`.
`txTime` is the event timestamp in epoch seconds and `hour` its
`datetime.hour`. -/
structure BehavInputs where
  amount : ℚ := 0
  txTime : ℚ := 0
  hour : ℕ := 0
  sender_lat : Option ℚ := none
  sender_lon : Option ℚ := none
  asnResult : Option AsnFeatures := none
  receiverPresent : Bool := false
  is_new_device : Bool := false
deriving Repr, DecidableEq

/-- Python float truthiness for an optional value (`None` and `0.0` falsy). -/
def pyTruthyQ (o : Option ℚ) : Bool :=
  match o with
  | some x => decide (x ≠ 0)
  | none => false

/-- `np.mean`. -/
def npMean (l : List ℚ) : ℚ := l.sum / l.length

/-- Population variance; `np.std` is `sqrtQ` of this. -/
def npPopVariance (l : List ℚ) : ℚ :=
  ((l.map (fun a => (a - npMean l) ^ 2)).sum) / l.length

/-- Insertion into a sorted list. -/
def insertSorted (a : ℚ) : List ℚ → List ℚ
  | [] => [a]
  | b :: t => if a ≤ b then a :: b :: t else b :: insertSorted a t

/-- Ascending sort. -/
def sortQ (l : List ℚ) : List ℚ := l.foldr insertSorted []

/-- `np.percentile(values, p)` with the default linear interpolation. -/
def npPercentile (l : List ℚ) (p : ℚ) : ℚ :=
  let s := sortQ l
  let pos : ℚ := ((s.length : ℚ) - 1) * p / 100
  let i : ℕ := (⌊pos⌋).toNat
  let frac : ℚ := pos - (i : ℚ)
  match s.get? i, s.get? (i + 1) with
  | some a, some b => a + frac * (b - a)
  | some a, none => a
  | none, _ => 0

/-- `iqr_outlier` (anomaly_detection.py lines 27-33) at the default
`k = 1.5`. -/
def iqrOutlier (value : ℚ) (values : List ℚ) : Bool :=
  if values.length < 4 then false
  else
    let q1 := npPercentile values 25
    let q3 := npPercentile values 75
    let iqr := q3 - q1
    decide (value < q1 - 1.5 * iqr) || decide (q3 + 1.5 * iqr < value)

/-- `_detect_fixed_amount_pattern` (behavioral.py lines 65-70). -/
def detectFixedAmountPattern (amounts : List ℚ) (current : ℚ)
    (tolerance : ℚ) (min_count : ℕ) : Bool :=
  if amounts.length < min_count then false
  else min_count ≤ amounts.countP (fun a => decide (|a - current| / max current 1 ≤ tolerance))

/-- Night-window test (behavioral.py line 163):
`hour >= NIGHT_START_HOUR or hour <= NIGHT_END_HOUR`. -/
def nightFlag (hour : ℕ) : Bool :=
  decide (settings.NIGHT_START_HOUR ≤ hour) || decide (hour ≤ settings.NIGHT_END_HOUR)

/-- Python dict insertion: overwrite in place or append. -/
def dictInsertNat (d : List (ℕ × ℕ)) (k v : ℕ) : List (ℕ × ℕ) :=
  if d.any (fun p => p.1 = k) then d.map (fun p => if p.1 = k then (k, v) else p)
  else d ++ [(k, v)]

/-- The `hour_counts` dict of the circadian block (behavioral.py line 218). -/
def hourDict (rows : List HourRow) : List (ℕ × ℕ) :=
  rows.foldl (fun d r => dictInsertNat d r.hour r.cnt) []

/-- The signal values entering the behavioural risk sum. -/
structure BehavSignals where
  amount_zscore : ℚ := 0
  velocity_score : ℚ := 0
  impossible_travel : Bool := false
  night_flag : Bool := false
  iqr_outlier_flag : Bool := false
  spike : Bool := false
  dormant_burst : Bool := false
  asn_risk_scaled : ℚ := 0
  ip_rotation_flag : Bool := false
  fixed_amount_flag : Bool := false
  circadian_score : ℚ := 0
  tx_identicality_flag : Bool := false
deriving Repr, DecidableEq

/-- The pre-clamp behavioural risk sum (behavioral.py lines 252-264); the
source then clamps it with `risk = min(risk, 100.0)`. -/
def behavioralRiskRaw (s : BehavSignals) : ℚ :=
  min (|s.amount_zscore| * 10) 30
  + s.velocity_score * 20
  + (if s.impossible_travel then (1 : ℚ) else 0) * 20
  + (if s.night_flag then (1 : ℚ) else 0) * 5
  + (if s.iqr_outlier_flag then (1 : ℚ) else 0) * 15
  + (if s.spike then (1 : ℚ) else 0) * 10
  + (if s.dormant_burst then (1 : ℚ) else 0) * 15
  + s.asn_risk_scaled
  + (if s.ip_rotation_flag then settings.IP_ROTATION_PENALTY else 0)
  + (if s.fixed_amount_flag then settings.FIXED_AMOUNT_PENALTY else 0)
  + s.circadian_score
  + (if s.tx_identicality_flag then settings.TX_IDENTICALITY_PENALTY else 0)

/-- `BehavioralFeatureExtractor.compute` after its two unguarded reads have
succeeded (behavioral.py lines 104-326). -/
def behavioralComputeCore (sqrtQ : ℚ → ℚ) (haversineQ : ℚ → ℚ → ℚ → ℚ → ℚ)
    (inp : BehavInputs) (histRows : List HistRow) (profRows : List ProfileRow)
    (ipRot : Except Unit (List IpRotRow)) (recentRows : Except Unit (List AmtRow))
    (hourRows : Except Unit (List HourRow)) (identRows : Except Unit (List IdentRow)) :
    BehavF :=
  let amounts := histRows.filterMap (fun r =>
    match r.amount with
    | some a => if a = 0 then none else some a
    | none => none)
  let timestamps := histRows.filterMap (fun r =>
    match r.timestamp with
    | some t => if t = 0 then none else some t
    | none => none)
  let profile := profRows.head?
  let profile_mean := pyOrQ (profile.bind (·.avg_tx_amount)) 0
  let profile_std := pyOrQ (profile.bind (·.std_tx_amount)) 0
  -- amount features (3σ rule, lines 111-129); `or 1.0` maps a zero std to 1
  let zBlock : ℚ × ℚ × ℚ × Bool :=
    if 2 ≤ amounts.length then
      let mean_a := npMean amounts
      let std0 := sqrtQ (npPopVariance amounts)
      let std_a := if std0 = 0 then 1 else std0
      ((inp.amount - mean_a) / std_a, mean_a, std_a,
        decide (mean_a + 3 * std_a < inp.amount))
    else if 0 < profile_mean then
      let mean_a := profile_mean
      let std_a := if 0 < profile_std then profile_std else profile_mean * 0.5
      ((inp.amount - mean_a) / std_a, mean_a, std_a,
        decide (mean_a + 3 * std_a < inp.amount))
    else (0, inp.amount, 0, false)
  let amount_zscore := zBlock.1
  let rolling_mean := zBlock.2.1
  let rolling_std := zBlock.2.2.1
  let spike := zBlock.2.2.2
  -- dormant-burst cross-signal (lines 132-133)
  let is_dormant := (profile.map (·.is_dormant)).getD false
  let dormant_burst := is_dormant && decide (0 < profile_mean)
    && decide (profile_mean < inp.amount)
  -- ASN intelligence (lines 136-140)
  let asn_risk_scaled := ((inp.asnResult).map (·.asn_risk_scaled)).getD 0
  -- temporal features (lines 143-158)
  let time_since_last :=
    match timestamps.head? with
    | some last_ts => max (inp.txTime - last_ts) 0
    | none => 0
  let recent_count := timestamps.countP
    (fun ts => decide (inp.txTime - ts ≤ settings.VELOCITY_WINDOW_SEC))
  let velocity_score :=
    min ((recent_count : ℚ) / ((max settings.BURST_TX_THRESHOLD 1 : ℕ) : ℚ)) 1.0
  -- night-time flag (lines 162-163)
  let night_flag := nightFlag inp.hour
  -- geo features (lines 166-174)
  let geoBlock : ℚ × Bool :=
    if pyTruthyQ inp.sender_lat && pyTruthyQ inp.sender_lon
        && pyTruthyQ (profile.bind (·.last_lat))
        && pyTruthyQ (profile.bind (·.last_lon)) then
      let d := haversineQ ((profile.bind (·.last_lat)).getD 0)
        ((profile.bind (·.last_lon)).getD 0)
        ((inp.sender_lat).getD 0) ((inp.sender_lon).getD 0)
      if 0 < time_since_last then
        let speed_kmh := d / (time_since_last / 3600)
        (d, decide (settings.IMPOSSIBLE_TRAVEL_KMH < speed_kmh))
      else (d, false)
    else (0, false)
  let geo_distance := geoBlock.1
  let impossible_travel := geoBlock.2
  -- IQR outlier detection (lines 177-179)
  let iqr_outlier_flag := if 4 ≤ amounts.length then iqrOutlier inp.amount amounts
    else false
  -- IP rotation, wrapped read (lines 182-192)
  let ipRotBlock : ℕ × Bool :=
    match ipRot with
    | .ok rows =>
      match rows.head? with
      | some row =>
        let c := pyOrN row.unique_ip_count 0
        (c, decide (settings.IP_ROTATION_MAX_UNIQUE ≤ c))
      | none => (0, false)
    | .error _ => (0, false)
  let ip_rotation_count := ipRotBlock.1
  let ip_rotation_flag := ipRotBlock.2
  -- fixed-amount pattern, wrapped read (lines 195-208)
  let fixed_amount_flag :=
    match recentRows with
    | .ok rows =>
      let recent_amts := rows.filterMap (fun r =>
        match r.amount with
        | some a => if a = 0 then none else some a
        | none => none)
      detectFixedAmountPattern recent_amts inp.amount
        settings.FIXED_AMOUNT_TOLERANCE settings.FIXED_AMOUNT_MIN_COUNT
    | .error _ => false
  -- circadian anomaly, wrapped read (lines 211-229)
  let circadianBlock : Bool × ℚ :=
    match hourRows with
    | .ok rows =>
      if 3 ≤ rows.length then
        let hour_counts := hourDict rows
        let total := (hour_counts.map (·.2)).sum
        let current_hour_count :=
          ((hour_counts.find? (fun p => p.1 = inp.hour)).map (·.2)).getD 0
        if 10 ≤ total ∧ (current_hour_count : ℚ) / (total : ℚ) < 0.02 then
          (true, if inp.is_new_device then settings.CIRCADIAN_NEW_DEVICE_PENALTY
            else settings.CIRCADIAN_ANOMALY_PENALTY)
        else (false, 0)
      else (false, 0)
    | .error _ => (false, 0)
  let circadian_anomaly := circadianBlock.1
  let circadian_score := circadianBlock.2
  -- transaction identicality, wrapped read (lines 232-249)
  let identBlock : Bool × ℕ :=
    if inp.receiverPresent then
      match identRows with
      | .ok rows =>
        match rows.head? with
        | some row =>
          let c := pyOrN row.identical_count 0
          (decide (settings.TX_IDENTICALITY_MIN_COUNT ≤ c), c)
        | none => (false, 0)
      | .error _ => (false, 0)
    else (false, 0)
  let tx_identicality_flag := identBlock.1
  let tx_identicality_count := identBlock.2
  -- fuse into 0-100 risk (lines 252-265)
  let signals : BehavSignals :=
    { amount_zscore := amount_zscore
      velocity_score := velocity_score
      impossible_travel := impossible_travel
      night_flag := night_flag
      iqr_outlier_flag := iqr_outlier_flag
      spike := spike
      dormant_burst := dormant_burst
      asn_risk_scaled := asn_risk_scaled
      ip_rotation_flag := ip_rotation_flag
      fixed_amount_flag := fixed_amount_flag
      circadian_score := circadian_score
      tx_identicality_flag := tx_identicality_flag }
  let risk := min (behavioralRiskRaw signals) 100.0
  -- flags (lines 267-292)
  let asn_risk_val := ((inp.asnResult).map (·.asn_risk)).getD 0
  let asn_kind_val := ((inp.asnResult).map (·.asn_kind)).getD "UNKNOWN"
  let foreignFlagN := ((inp.asnResult).map (·.foreign_flag)).getD 0
  let asnDriftN := ((inp.asnResult).map (·.asn_drift)).getD 0
  let flags : List String :=
    (if spike then ["Amount spike: " ++ toString amount_zscore ++ "σ above baseline"]
     else [])
    ++ (if dormant_burst then ["Dormant Burst: tx amount exceeds historical avg"]
     else [])
    ++ (if impossible_travel then
      ["Impossible travel: " ++ toString geo_distance ++ "km"] else [])
    ++ (if night_flag then ["Night-time transaction"] else [])
    ++ (if (0.5 : ℚ) ≤ asn_risk_val then
      ["ASN Risk (" ++ asn_kind_val ++ "): score=" ++ toString asn_risk_val] else [])
    ++ (if foreignFlagN ≠ 0 then
      ["Foreign IP: " ++ ((inp.asnResult).map (·.org_name)).getD "?" ++ " ("
        ++ ((inp.asnResult).map (·.country)).getD "?" ++ ")"] else [])
    ++ (if asnDriftN ≠ 0 then
      ["ASN Drift: IP network differs from user usual pattern"] else [])
    ++ (if ip_rotation_flag then
      ["IP Rotation: " ++ toString ip_rotation_count ++ " unique IPs in 24h"] else [])
    ++ (if fixed_amount_flag then
      ["Fixed Amount Pattern: repeated " ++ toString inp.amount ++ " transfers"]
     else [])
    ++ (if circadian_anomaly then
      ["Circadian Anomaly: tx at hour " ++ toString inp.hour ++ " is unusual for user"]
     else [])
    ++ (if tx_identicality_flag then
      ["TX Identicality: " ++ toString tx_identicality_count
        ++ " identical amount transfers to same receiver in "
        ++ toString settings.TX_IDENTICALITY_WINDOW_HOURS ++ "h"] else [])
  -- feature dict (lines 294-325)
  { amount_zscore := pyRound4 amount_zscore
    rolling_mean := pyRound2 rolling_mean
    rolling_std := pyRound2 rolling_std
    time_since_last_tx := pyRound2 time_since_last
    velocity_score := pyRound4 velocity_score
    geo_distance_km := pyRound2 geo_distance
    impossible_travel := impossible_travel
    is_night := night_flag
    spike_flag := spike
    dormant_burst := dormant_burst
    iqr_outlier_flag := iqr_outlier_flag
    ip_risk_score := pyRound2 asn_risk_scaled
    asn_risk := asn_risk_val
    asn_risk_scaled := pyRound2 asn_risk_scaled
    asn_kind := asn_kind_val
    asn_country := ((inp.asnResult).map (·.country)).getD ""
    foreign_flag := foreignFlagN
    asn_drift := asnDriftN
    asn_entropy := ((inp.asnResult).map (·.asn_entropy)).getD 0
    asn_density := ((inp.asnResult).map (·.asn_density)).getD 0
    asn_base := ((inp.asnResult).map (·.asn_base)).getD 0
    ip_rotation_count := ip_rotation_count
    ip_rotation_flag := ip_rotation_flag
    fixed_amount_flag := fixed_amount_flag
    circadian_anomaly := circadian_anomaly
    circadian_score := pyRound2 circadian_score
    tx_identicality_flag := tx_identicality_flag
    tx_identicality_count := tx_identicality_count
    risk := pyRound2 risk
    flags := flags }

/-- `BehavioralFeatureExtractor.compute`: the history read (line 95) and the
profile read (line 99) are performed without a `try/except`, so their
failure propagates out of `compute`; everything after them is
`behavioralComputeCore`. -/
def behavioralCompute (sqrtQ : ℚ → ℚ) (haversineQ : ℚ → ℚ → ℚ → ℚ → ℚ)
    (inp : BehavInputs) (history : Except Unit (List HistRow))
    (profile : Except Unit (List ProfileRow))
    (ipRot : Except Unit (List IpRotRow)) (recentRows : Except Unit (List AmtRow))
    (hourRows : Except Unit (List HourRow)) (identRows : Except Unit (List IdentRow)) :
    Except Unit BehavF :=
  match history with
  | .error e => .error e
  | .ok histRows =>
    match profile with
    | .error e => .error e
    | .ok profRows =>
      .ok (behavioralComputeCore sqrtQ haversineQ inp histRows profRows
        ipRot recentRows hourRows identRows)

/-- The engine's invocation of the behavioural extractor (risk_engine.py
lines 165-171): `is_new_device` is not passed, so it takes its declared
default `False`. -/
def riskEngineBehavCall (sqrtQ : ℚ → ℚ) (haversineQ : ℚ → ℚ → ℚ → ℚ → ℚ)
    (inp : BehavInputs) (history : Except Unit (List HistRow))
    (profile : Except Unit (List ProfileRow))
    (ipRot : Except Unit (List IpRotRow)) (recentRows : Except Unit (List AmtRow))
    (hourRows : Except Unit (List HourRow)) (identRows : Except Unit (List IdentRow)) :
    Except Unit BehavF :=
  behavioralCompute sqrtQ haversineQ { inp with is_new_device := false }
    history profile ipRot recentRows hourRows identRows

/-! ## Worker per-message pipeline (`WorkerPool._process_message`,
worker_pool.py lines 262-479)

The pipeline is modelled by which stage (if any) raises.  The stages inside
the big `try` are: decode/parse (lines 268-284), ingest with retries
(line 307, raising only after `_ingest_with_retry` exhausts its ladder), the
IP-enrichment write (lines 315-377, only when an IP address is present),
scoring (line 380), the risk write-back (lines 386-396, wrapped in its own
`try/except` that merely logs a warning), the alert callback (lines 399-446,
only when a callback is registered) and the `xack` (lines 448-453).  The
`except` at lines 476-478 increments `ingest_errors` and logs the error —
and performs no `xack`. -/

structure WorkerMsgOutcome where
  decodeOk : Bool := true
  ingestOk : Bool := true
  hasIp : Bool := false
  enrichOk : Bool := true
  scoreOk : Bool := true
  writebackOk : Bool := true
  hasAlertCallback : Bool := true
  alertOk : Bool := true
  ackOk : Bool := true
deriving Repr, DecidableEq

structure WorkerEffects where
  ingestErrorsDelta : ℕ
  processedDelta : ℕ
  acked : Bool
  errorLogged : Bool
deriving Repr, DecidableEq

/-- Effect of the catch-all handler (worker_pool.py lines 476-478): count,
log, do not acknowledge. -/
def workerFailEffects : WorkerEffects :=
  { ingestErrorsDelta := 1, processedDelta := 0, acked := false, errorLogged := true }

def workerProcessMessage (o : WorkerMsgOutcome) : WorkerEffects :=
  if ¬o.decodeOk then workerFailEffects
  else if ¬o.ingestOk then workerFailEffects
  else if o.hasIp ∧ ¬o.enrichOk then workerFailEffects
  else if ¬o.scoreOk then workerFailEffects
  -- a write-back failure is caught in place and only logged (lines 395-396)
  else if o.hasAlertCallback ∧ ¬o.alertOk then workerFailEffects
  else if ¬o.ackOk then workerFailEffects
  else { ingestErrorsDelta := 0, processedDelta := 1, acked := true, errorLogged := false }

/-! ## Stream adapter per-message handler (`StreamAdapter._handle_message`,
stream_adapter.py lines 177-256)

Failure modes: decode (lines 188-198, caught by the catch-all at 245-255),
schema validation (lines 204-214, its own `except` branch), republish
(line 223, caught by the catch-all).  Both error paths increment the single
`validation_errors` counter and acknowledge the message on the raw log; the
acknowledgement itself is modelled as succeeding. -/

structure AdapterMsgOutcome where
  decodeOk : Bool := true
  schemaValid : Bool := true
  publishOk : Bool := true
deriving Repr, DecidableEq

structure AdapterEffects where
  validationErrorsDelta : ℕ
  forwardedDelta : ℕ
  acked : Bool
  published : Bool
deriving Repr, DecidableEq

def adapterHandleMessage (o : AdapterMsgOutcome) : AdapterEffects :=
  if ¬o.decodeOk then
    { validationErrorsDelta := 1, forwardedDelta := 0, acked := true, published := false }
  else if ¬o.schemaValid then
    { validationErrorsDelta := 1, forwardedDelta := 0, acked := true, published := false }
  else if ¬o.publishOk then
    { validationErrorsDelta := 1, forwardedDelta := 0, acked := true, published := false }
  else
    { validationErrorsDelta := 0, forwardedDelta := 1, acked := true, published := true }

/-- A rational that is a non-negative multiple of `1/100`.  Every increment
of the mule score accumulator is such a multiple, which makes the Python
`round(score, 3)` the identity on the accumulated score. -/
def Centi (q : ℚ) : Prop := ∃ k : ℕ, q = (k : ℚ) / 100

/-! # Theorems -/

theorem roundHalfEven_intCast (n : ℤ) : roundHalfEven (n : ℚ) = n := by
  unfold roundHalfEven
  rw [Int.floor_intCast]
  norm_num

theorem pyRound2_intCast (n : ℤ) : pyRound2 (n : ℚ) = n := by
  unfold pyRound2
  rw [show ((n : ℚ) * 100) = ((n * 100 : ℤ) : ℚ) by push_cast; ring,
    roundHalfEven_intCast]
  push_cast
  ring

theorem centi_zero : Centi 0 := ⟨0, by norm_num⟩

theorem centi_add {a b : ℚ} (ha : Centi a) (hb : Centi b) : Centi (a + b) := by
  obtain ⟨m, rfl⟩ := ha
  obtain ⟨n, rfl⟩ := hb
  exact ⟨m + n, by push_cast; ring⟩

theorem centi_nonneg {q : ℚ} (h : Centi q) : 0 ≤ q := by
  obtain ⟨k, rfl⟩ := h
  positivity

theorem centi_min_one {q : ℚ} (h : Centi q) : Centi (min q 1) := by
  obtain ⟨k, rfl⟩ := h
  rcases le_total ((k : ℚ) / 100) 1 with h1 | h1
  · exact ⟨k, min_eq_left h1⟩
  · exact ⟨100, by rw [min_eq_right h1]; norm_num⟩

theorem pyRound3_centi {q : ℚ} (h : Centi q) : pyRound3 q = q := by
  obtain ⟨k, rfl⟩ := h
  unfold pyRound3
  rw [show ((k : ℚ) / 100 * 1000) = ((10 * k : ℤ) : ℚ) by push_cast; ring,
    roundHalfEven_intCast]
  push_cast
  ring

theorem centi_muleScoreRaw (b : BehavF) (d : DeadF) (dv : DeviceF) (g : GraphF)
    (v : VelF) : Centi (muleScoreRaw b d dv g v) := by
  unfold muleScoreRaw
  repeat' apply centi_add
  all_goals repeat' split
  all_goals
    first
      | exact centi_zero
      | (refine ⟨30, ?_⟩; norm_num; done)
      | (refine ⟨25, ?_⟩; norm_num; done)
      | (refine ⟨20, ?_⟩; norm_num; done)
      | (refine ⟨15, ?_⟩; norm_num; done)
      | (refine ⟨10, ?_⟩; norm_num; done)
      | (refine ⟨8, ?_⟩; norm_num; done)
      | (refine ⟨5, ?_⟩; norm_num; done)

/-! ## C1 — status/threshold mapping of the persisted and emitted status -/

/-- C1 (counterexample): at fused risk 80 the fusion engine's own persist
step (risk_engine.py lines 271-275) writes `FLAGGED`, not the `BLOCKED` that
the claimed threshold mapping demands for `R ≥ 70`. -/
theorem c1_engine_persist_counterexample :
    (scoreTransactionCore { risk := 80 } { risk := 80 } { risk := 80 } { risk := 80 }
      { risk := 80 } []).status = TransactionStatus.FLAGGED
    ∧ (scoreTransactionCore { risk := 80 } { risk := 80 } { risk := 80 } { risk := 80 }
      { risk := 80 } []).risk_score = 80
    ∧ specStatusOf 80 = TransactionStatus.BLOCKED
    ∧ TransactionStatus.FLAGGED ≠ TransactionStatus.BLOCKED := by
  have hf : fuseRiskScores (80 : ℚ) 80 80 80 80 = 80 := by
    norm_num [fuseRiskScores, settings.WEIGHT_GRAPH, settings.WEIGHT_BEHAVIORAL,
      settings.WEIGHT_DEVICE, settings.WEIGHT_DEAD_ACCOUNT, settings.WEIGHT_VELOCITY]
  have hr : pyRound2 (80 : ℚ) = 80 := by
    have h := pyRound2_intCast 80
    norm_num at h
    exact h
  refine ⟨?_, ?_, ?_, by decide⟩
  · simp only [scoreTransactionCore]
    norm_num [hf, riskLevelOf, enginePersistStatus, settings.HIGH_RISK_THRESHOLD]
  · simp only [scoreTransactionCore]
    norm_num [hf, hr]
  · norm_num [specStatusOf, settings.HIGH_RISK_THRESHOLD]

/-- C1 (amended): the worker's write-back status (worker_pool.py lines
383-385), which is also the status emitted in the alert payload, follows the
claimed threshold mapping for every risk score; the fusion engine's own
persist step instead writes `FLAGGED` when `R ≥ HIGH_RISK_THRESHOLD` and
`COMPLETED` otherwise (so it never writes `BLOCKED`, and scores in the
`FLAGGED` band are written `COMPLETED`). -/
theorem c1_status_mapping :
    (∀ r : ℚ, workerWriteBackStatus r = specStatusOf r)
    ∧ (∀ r : ℚ, enginePersistStatus (riskLevelOf r)
        = if settings.HIGH_RISK_THRESHOLD ≤ r then TransactionStatus.FLAGGED
          else TransactionStatus.COMPLETED)
    ∧ (∀ b d dv g v cf, (scoreTransactionCore b d dv g v cf).status
        = enginePersistStatus (riskLevelOf (scoreTransactionCore b d dv g v cf).fused)) := by
  refine ⟨fun r => rfl, fun r => ?_, fun b d dv g v cf => rfl⟩
  by_cases h1 : settings.HIGH_RISK_THRESHOLD ≤ r
  · simp [riskLevelOf, enginePersistStatus, h1]
  · by_cases h2 : settings.MEDIUM_RISK_THRESHOLD ≤ r <;>
      simp [riskLevelOf, enginePersistStatus, h1, h2]

/-! ## C2 — worker error handling for a failing message -/

/-- C2 (counterexample): a message whose decode stage raises is counted and
logged, but it is *not* acknowledged on the processing log: the `except`
handler of `WorkerPool._process_message` (worker_pool.py lines 476-478)
performs no `xack`. -/
theorem c2_no_ack_counterexample :
    workerProcessMessage { decodeOk := false } = workerFailEffects
    ∧ (workerProcessMessage { decodeOk := false }).acked = false
    ∧ (workerProcessMessage { decodeOk := false }).ingestErrorsDelta = 1
    ∧ (workerProcessMessage { decodeOk := false }).errorLogged = true := by
  decide

/-- C2 (amended): an error raised at any pipeline stage (decode, ingest
after retries, IP enrichment, scoring, alert dispatch, or the ack call
itself) does not crash the worker: the error counter is incremented and the
error logged — but the message is *not* acknowledged and stays pending.  A
message is acknowledged exactly when every stage up to the ack succeeds; a
write-back failure alone is absorbed and the message is still acknowledged
and counted as processed. -/
theorem c2_worker_error_handling (o : WorkerMsgOutcome) :
    ((workerProcessMessage o).acked = true
      ↔ (o.decodeOk = true ∧ o.ingestOk = true ∧ (o.hasIp = true → o.enrichOk = true)
        ∧ o.scoreOk = true ∧ (o.hasAlertCallback = true → o.alertOk = true)
        ∧ o.ackOk = true))
    ∧ ((workerProcessMessage o).acked = false →
        workerProcessMessage o = workerFailEffects)
    ∧ (o.decodeOk = true → o.ingestOk = true → (o.hasIp = true → o.enrichOk = true)
        → o.scoreOk = true → (o.hasAlertCallback = true → o.alertOk = true)
        → o.ackOk = true →
        (workerProcessMessage o).acked = true
        ∧ (workerProcessMessage o).processedDelta = 1
        ∧ (workerProcessMessage o).ingestErrorsDelta = 0) := by
  obtain ⟨d, i, hip, e, s, w, hc, a, k⟩ := o
  cases d <;> cases i <;> cases hip <;> cases e <;> cases s <;> cases w <;>
    cases hc <;> cases a <;> cases k <;>
    simp [workerProcessMessage, workerFailEffects]

/-- C2 (witness): a message failing only its write-back stage is still
acknowledged and counted as processed. -/
theorem c2_witness :
    (workerProcessMessage { writebackOk := false }).acked = true
    ∧ (workerProcessMessage { writebackOk := false }).processedDelta = 1
    ∧ (workerProcessMessage { writebackOk := false }).ingestErrorsDelta = 0 :=
  (c2_worker_error_handling { writebackOk := false }).2.2 rfl rfl (fun h => rfl) rfl
    (fun h => rfl) rfl

/-! ## C3 — fusion formula and its bounds -/

/-- C3: for sub-scores in `[0, 100]` the fused risk equals the weighted sum
`0.30·S_graph + 0.25·S_beh + 0.20·S_dev + 0.15·S_dead + 0.10·S_vel` clamped
to 100, and always lies in `[0, 100]`. -/
theorem c3_fusion_bounds (sg sb sd sde sv : ℚ)
    (h1 : 0 ≤ sg) (h2 : sg ≤ 100) (h3 : 0 ≤ sb) (h4 : sb ≤ 100)
    (h5 : 0 ≤ sd) (h6 : sd ≤ 100) (h7 : 0 ≤ sde) (h8 : sde ≤ 100)
    (h9 : 0 ≤ sv) (h10 : sv ≤ 100) :
    fuseRiskScores sg sb sd sde sv
      = min (0.30 * sg + 0.25 * sb + 0.20 * sd + 0.15 * sde + 0.10 * sv) 100
    ∧ 0 ≤ fuseRiskScores sg sb sd sde sv
    ∧ fuseRiskScores sg sb sd sde sv ≤ 100 := by
  have hsum : 0 ≤ settings.WEIGHT_GRAPH * sg + settings.WEIGHT_BEHAVIORAL * sb
      + settings.WEIGHT_DEVICE * sd + settings.WEIGHT_DEAD_ACCOUNT * sde
      + settings.WEIGHT_VELOCITY * sv := by
    have g1 := mul_nonneg (by norm_num [settings.WEIGHT_GRAPH] :
      (0 : ℚ) ≤ settings.WEIGHT_GRAPH) h1
    have g2 := mul_nonneg (by norm_num [settings.WEIGHT_BEHAVIORAL] :
      (0 : ℚ) ≤ settings.WEIGHT_BEHAVIORAL) h3
    have g3 := mul_nonneg (by norm_num [settings.WEIGHT_DEVICE] :
      (0 : ℚ) ≤ settings.WEIGHT_DEVICE) h5
    have g4 := mul_nonneg (by norm_num [settings.WEIGHT_DEAD_ACCOUNT] :
      (0 : ℚ) ≤ settings.WEIGHT_DEAD_ACCOUNT) h7
    have g5 := mul_nonneg (by norm_num [settings.WEIGHT_VELOCITY] :
      (0 : ℚ) ≤ settings.WEIGHT_VELOCITY) h9
    linarith
  refine ⟨?_, ?_, ?_⟩
  · norm_num [fuseRiskScores, settings.WEIGHT_GRAPH, settings.WEIGHT_BEHAVIORAL,
      settings.WEIGHT_DEVICE, settings.WEIGHT_DEAD_ACCOUNT, settings.WEIGHT_VELOCITY]
  · unfold fuseRiskScores
    exact le_min hsum (by norm_num)
  · unfold fuseRiskScores
    calc min (settings.WEIGHT_GRAPH * sg + settings.WEIGHT_BEHAVIORAL * sb
        + settings.WEIGHT_DEVICE * sd + settings.WEIGHT_DEAD_ACCOUNT * sde
        + settings.WEIGHT_VELOCITY * sv) 100.0 ≤ 100.0 := min_le_right _ _
      _ = 100 := by norm_num

/-- C3 (witness): the fusion theorem at sub-scores all equal to 50. -/
theorem c3_witness :
    fuseRiskScores 50 50 50 50 50
      = min (0.30 * 50 + 0.25 * 50 + 0.20 * 50 + 0.15 * 50 + 0.10 * 50) 100
    ∧ 0 ≤ fuseRiskScores 50 50 50 50 50
    ∧ fuseRiskScores 50 50 50 50 50 ≤ 100 :=
  c3_fusion_bounds 50 50 50 50 50 (by norm_num) (by norm_num) (by norm_num)
    (by norm_num) (by norm_num) (by norm_num) (by norm_num) (by norm_num)
    (by norm_num) (by norm_num)

/-! ## C4 — mule classifier: confidence bounds and decision rule -/

/-- C4: the accumulated confidence lies in `[0, 1]` and
`is_mule` holds exactly when `confidence ≥ 0.5` or the fused risk is
`≥ 65`; in particular `is_mule` is true whenever the fused risk is `≥ 65`,
however little signal accumulated. -/
theorem c4_mule_decision (b : BehavF) (d : DeadF) (dv : DeviceF) (g : GraphF)
    (v : VelF) (fused : ℚ) :
    (0 ≤ (muleEvaluate b d dv g v fused).confidence
      ∧ (muleEvaluate b d dv g v fused).confidence ≤ 1)
    ∧ ((muleEvaluate b d dv g v fused).is_mule = true
      ↔ ((1 : ℚ)/2 ≤ (muleEvaluate b d dv g v fused).confidence
          ∨ mule.MULE_RISK_THRESHOLD ≤ fused))
    ∧ (mule.MULE_RISK_THRESHOLD ≤ fused →
        (muleEvaluate b d dv g v fused).is_mule = true) := by
  have hC : Centi (muleScoreRaw b d dv g v) := centi_muleScoreRaw b d dv g v
  have h1 : (1.0 : ℚ) = 1 := by norm_num
  have hconf : (muleEvaluate b d dv g v fused).confidence
      = min (muleScoreRaw b d dv g v) 1 := by
    simp only [muleEvaluate, h1]
    exact pyRound3_centi (centi_min_one hC)
  have hmule : (muleEvaluate b d dv g v fused).is_mule
      = (decide ((0.5 : ℚ) ≤ min (muleScoreRaw b d dv g v) 1.0)
        || decide (mule.MULE_RISK_THRESHOLD ≤ fused)) := by
    simp only [muleEvaluate]
  refine ⟨⟨?_, ?_⟩, ?_, ?_⟩
  · rw [hconf]
    exact le_min (centi_nonneg hC) zero_le_one
  · rw [hconf]
    exact min_le_right _ _
  · rw [hmule, hconf, Bool.or_eq_true, decide_eq_true_iff, decide_eq_true_iff]
    constructor
    · rintro (h | h)
      · exact Or.inl (by rw [h1] at h; linarith)
      · exact Or.inr h
    · rintro (h | h)
      · exact Or.inl (by rw [h1]; linarith)
      · exact Or.inr h
  · intro h
    rw [hmule, Bool.or_eq_true]
    exact Or.inr (by rw [decide_eq_true_iff]; exact h)

/-- C4 (witness): with no accumulated signal at all but fused risk 70, the
classifier still declares a mule. -/
theorem c4_witness : (muleEvaluate {} {} {} {} {} 70).is_mule = true :=
  (c4_mule_decision {} {} {} {} {} 70).2.2
    (by norm_num [mule.MULE_RISK_THRESHOLD])

/-! ## C5 — reason string: non-emptiness and the two fallback strings -/

/-- C5 (counterexample): with no triggered signal and fused risk 75 the
reason is `"Multiple minor indicators combined above threshold."` — with a
trailing period appended by the final join (risk_engine.py line 129) — so it
is not exactly the claimed string without the period. -/
theorem c5_reason_counterexample :
    buildReasonParts {} {} {} {} {} = []
    ∧ buildReason {} {} {} {} {} 75 []
      = "Multiple minor indicators combined above threshold."
    ∧ buildReason {} {} {} {} {} 75 []
      ≠ "Multiple minor indicators combined above threshold" := by
  have hp : buildReasonParts ({} : BehavF) {} {} {} {} = [] := by
    norm_num [buildReasonParts, settings.PASS_THROUGH_RATIO_THRESHOLD,
      settings.DEVICE_ACCOUNT_THRESHOLD]
  refine ⟨hp, ?_, ?_⟩
  · simp only [buildReason, hp]
    norm_num [settings.HIGH_RISK_THRESHOLD]
    decide
  · simp only [buildReason, hp]
    norm_num [settings.HIGH_RISK_THRESHOLD]
    decide

/-- C5 (amended): the reason of a scored transaction is never empty; when no
individual signal contributes a part, the reason is exactly
`"No significant risk indicators"` below the high-risk threshold and exactly
`"Multiple minor indicators combined above threshold."` (with a trailing
period) at or above it. -/
theorem c5_reason_nonempty (b : BehavF) (d : DeadF) (dv : DeviceF) (g : GraphF)
    (v : VelF) (fused : ℚ) (flags : List String) :
    buildReason b d dv g v fused flags ≠ ""
    ∧ (buildReasonParts b d dv g v = [] →
        buildReason b d dv g v fused flags
          = if settings.HIGH_RISK_THRESHOLD ≤ fused
            then "Multiple minor indicators combined above threshold."
            else "No significant risk indicators") := by
  constructor
  · simp only [buildReason]
    split
    · split
      · decide
      · decide
    · intro h
      have hlen := congrArg String.length h
      rw [String.length_append] at hlen
      have h1 : (".".length) = 1 := rfl
      have h2 : ("".length) = 0 := rfl
      rw [h1, h2] at hlen
      omega
  · intro hp
    simp only [buildReason, hp]
    split_ifs
    all_goals first | rfl | decide | simp_all

/-- C5 (witness): with no triggered signal and fused risk 0 the reason is
the non-empty no-indicator string. -/
theorem c5_witness :
    buildReason {} {} {} {} {} 0 [] ≠ ""
    ∧ buildReason {} {} {} {} {} 0 [] = "No significant risk indicators" := by
  have h := c5_reason_nonempty {} {} {} {} {} 0 []
  refine ⟨h.1, ?_⟩
  rw [h.2 (by norm_num [buildReasonParts, settings.PASS_THROUGH_RATIO_THRESHOLD,
    settings.DEVICE_ACCOUNT_THRESHOLD])]
  norm_num [settings.HIGH_RISK_THRESHOLD]

/-! ## C6 — which behavioural read failures are absorbed -/

/-- C6 (counterexample): a failing transaction-history read is *not*
absorbed: `compute` performs that read outside any `try/except`
(behavioral.py line 95), so the error propagates instead of a feature dict
being returned. -/
theorem c6_history_failure_propagates :
    behavioralCompute id (fun _ _ _ _ => 0) {} (.error ()) (.ok []) (.ok []) (.ok [])
      (.ok []) (.ok []) = .error () := rfl

/-- C6 (amended): only the four wrapped reads (IP rotation, recent amounts,
hour distribution, identicality) degrade to "no signal" on failure — their
flags stay false and their score contribution is zero while `compute` still
returns a feature dict; a failing history or profile read propagates an
error out of `compute`. -/
theorem c6_wrapped_reads_degrade (sqrtQ : ℚ → ℚ) (havQ : ℚ → ℚ → ℚ → ℚ → ℚ)
    (inp : BehavInputs) (hist : List HistRow) (prof : List ProfileRow)
    (profile : Except Unit (List ProfileRow))
    (ipRot : Except Unit (List IpRotRow)) (recentRows : Except Unit (List AmtRow))
    (hourRows : Except Unit (List HourRow)) (identRows : Except Unit (List IdentRow)) :
    (behavioralCompute sqrtQ havQ inp (.error ()) profile ipRot recentRows hourRows
      identRows = .error ())
    ∧ (behavioralCompute sqrtQ havQ inp (.ok hist) (.error ()) ipRot recentRows
      hourRows identRows = .error ())
    ∧ (behavioralCompute sqrtQ havQ inp (.ok hist) (.ok prof) (.error ()) (.error ())
        (.error ()) (.error ())
      = .ok (behavioralComputeCore sqrtQ havQ inp hist prof (.error ()) (.error ())
        (.error ()) (.error ())))
    ∧ (behavioralComputeCore sqrtQ havQ inp hist prof (.error ()) (.error ())
        (.error ()) (.error ())).ip_rotation_count = 0
    ∧ (behavioralComputeCore sqrtQ havQ inp hist prof (.error ()) (.error ())
        (.error ()) (.error ())).ip_rotation_flag = false
    ∧ (behavioralComputeCore sqrtQ havQ inp hist prof (.error ()) (.error ())
        (.error ()) (.error ())).fixed_amount_flag = false
    ∧ (behavioralComputeCore sqrtQ havQ inp hist prof (.error ()) (.error ())
        (.error ()) (.error ())).circadian_anomaly = false
    ∧ (behavioralComputeCore sqrtQ havQ inp hist prof (.error ()) (.error ())
        (.error ()) (.error ())).circadian_score = 0
    ∧ (behavioralComputeCore sqrtQ havQ inp hist prof (.error ()) (.error ())
        (.error ()) (.error ())).tx_identicality_flag = false
    ∧ (behavioralComputeCore sqrtQ havQ inp hist prof (.error ()) (.error ())
        (.error ()) (.error ())).tx_identicality_count = 0 := by
  have h0 : pyRound2 (0 : ℚ) = 0 := by
    have h := pyRound2_intCast 0
    norm_num at h
    exact h
  refine ⟨rfl, rfl, rfl, rfl, rfl, rfl, rfl, ?_, ?_, ?_⟩
  · exact h0
  · obtain ⟨amt, tt, hr, slat, slon, asnR, rp, nd⟩ := inp
    cases rp <;> rfl
  · obtain ⟨amt, tt, hr, slat, slon, asnR, rp, nd⟩ := inp
    cases rp <;> rfl

/-! ## C7 — full composed ASN risk and its bounds -/

set_option maxHeartbeats 1000000 in
/-- C7: the full ASN risk equals the specified clamped formula (with the
two logarithmic ratios abstracted as inputs), drift is 1 exactly when the
current ASN differs from the history mode (for non-empty history),
`asn_risk_scaled = 20·asn_risk`, and the two values lie in `[0,1]` and
`[0,20]`. -/
theorem c7_asn_risk_formula (asn_base densityRatio entropyRatio : ℚ) (current : ℕ)
    (counts : List (ℕ × ℕ)) (foreign_flag : ℕ) :
    (asnRiskStep8 asn_base densityRatio entropyRatio (asnDriftOf current counts)
      foreign_flag).asn_risk
      = specAsnRisk asn_base densityRatio entropyRatio (asnDriftOf current counts)
        foreign_flag
    ∧ (asnRiskStep8 asn_base densityRatio entropyRatio (asnDriftOf current counts)
        foreign_flag).asn_risk_scaled
      = 20 * (asnRiskStep8 asn_base densityRatio entropyRatio
        (asnDriftOf current counts) foreign_flag).asn_risk
    ∧ 0 ≤ (asnRiskStep8 asn_base densityRatio entropyRatio (asnDriftOf current counts)
        foreign_flag).asn_risk
    ∧ (asnRiskStep8 asn_base densityRatio entropyRatio (asnDriftOf current counts)
        foreign_flag).asn_risk ≤ 1
    ∧ 0 ≤ (asnRiskStep8 asn_base densityRatio entropyRatio (asnDriftOf current counts)
        foreign_flag).asn_risk_scaled
    ∧ (asnRiskStep8 asn_base densityRatio entropyRatio (asnDriftOf current counts)
        foreign_flag).asn_risk_scaled ≤ 20
    ∧ (counts ≠ [] →
        (asnDriftOf current counts = 1 ↔ current ≠ modeAsn counts)) := by
  have hrisk0 : 0 ≤ (asnRiskStep8 asn_base densityRatio entropyRatio
      (asnDriftOf current counts) foreign_flag).asn_risk := by
    simp only [asnRiskStep8]
    exact le_min (le_trans (by norm_num) (le_max_right _ _)) (by norm_num)
  have hrisk1 : (asnRiskStep8 asn_base densityRatio entropyRatio
      (asnDriftOf current counts) foreign_flag).asn_risk ≤ 1 := by
    simp only [asnRiskStep8]
    exact le_trans (min_le_right _ _) (by norm_num)
  have hscaled : (asnRiskStep8 asn_base densityRatio entropyRatio
      (asnDriftOf current counts) foreign_flag).asn_risk_scaled
      = 20 * (asnRiskStep8 asn_base densityRatio entropyRatio
        (asnDriftOf current counts) foreign_flag).asn_risk := by
    simp only [asnRiskStep8]
    norm_num
    ring
  refine ⟨?_, hscaled, hrisk0, hrisk1, ?_, ?_, ?_⟩
  · norm_num [asnRiskStep8, specAsnRisk]
  · rw [hscaled]
    positivity
  · rw [hscaled]
    nlinarith [hrisk1]
  · intro h
    unfold asnDriftOf
    rw [if_neg h]
    split_ifs with h2
    · simp [h2]
    · simp [h2]

/-- C7 (witness): the formula theorem at concrete inputs with a non-empty
ASN history whose mode (2, seen 5 times) differs from the current ASN 1. -/
theorem c7_witness :
    (asnRiskStep8 0.7 2 0.3 (asnDriftOf 1 [(2, 5), (3, 1)]) 1).asn_risk ≤ 1
    ∧ (asnDriftOf 1 [(2, 5), (3, 1)] = 1 ↔ 1 ≠ modeAsn [(2, 5), (3, 1)]) := by
  have h := c7_asn_risk_formula 0.7 2 0.3 1 [(2, 5), (3, 1)] 1
  exact ⟨h.2.2.2.1, h.2.2.2.2.2.2 (by simp)⟩

/-! ## C8 — circadian × new-device compound boost, applied once -/

/-- C8: the fuser's compound boost adds exactly
`CIRCADIAN_NEW_DEVICE_PENALTY − CIRCADIAN_ANOMALY_PENALTY = 15` to the
behavioural sub-score (clamped to 100) exactly when both the circadian
anomaly and the new-device flag are present; and because the engine invokes
the behavioural extractor without `is_new_device`, the extractor itself
contributes only `CIRCADIAN_ANOMALY_PENALTY` (20) on a circadian anomaly,
so the compound is not double-counted. -/
theorem c8_compound_boost :
    (settings.CIRCADIAN_NEW_DEVICE_PENALTY - settings.CIRCADIAN_ANOMALY_PENALTY = 15)
    ∧ (∀ (b : BehavF) (d : DeadF) (dv : DeviceF) (g : GraphF) (v : VelF)
        (cf : List String), b.circadian_anomaly = true → dv.new_device_flag = true →
        (scoreTransactionCore b d dv g v cf).sBehavioral = min (b.risk + 15) 100)
    ∧ (∀ (b : BehavF) (d : DeadF) (dv : DeviceF) (g : GraphF) (v : VelF)
        (cf : List String),
        ¬(b.circadian_anomaly = true ∧ dv.new_device_flag = true) →
        (scoreTransactionCore b d dv g v cf).sBehavioral = b.risk)
    ∧ (∀ (sqrtQ : ℚ → ℚ) (havQ : ℚ → ℚ → ℚ → ℚ → ℚ) (inp : BehavInputs)
        (history : Except Unit (List HistRow)) (profile : Except Unit (List ProfileRow))
        (ipRot : Except Unit (List IpRotRow)) (recentRows : Except Unit (List AmtRow))
        (hourRows : Except Unit (List HourRow)) (identRows : Except Unit (List IdentRow))
        (f : BehavF),
        riskEngineBehavCall sqrtQ havQ inp history profile ipRot recentRows hourRows
          identRows = .ok f →
        f.circadian_score
          = if f.circadian_anomaly then settings.CIRCADIAN_ANOMALY_PENALTY else 0) := by
  have h20 : pyRound2 settings.CIRCADIAN_ANOMALY_PENALTY
      = settings.CIRCADIAN_ANOMALY_PENALTY := by
    have h := pyRound2_intCast 20
    norm_num [settings.CIRCADIAN_ANOMALY_PENALTY]
    norm_num at h
    exact h
  have h0 : pyRound2 (0 : ℚ) = 0 := by
    have h := pyRound2_intCast 0
    norm_num at h
    exact h
  refine ⟨by norm_num [settings.CIRCADIAN_NEW_DEVICE_PENALTY,
    settings.CIRCADIAN_ANOMALY_PENALTY], ?_, ?_, ?_⟩
  · intro b d dv g v cf hb hd
    simp only [scoreTransactionCore, hb, hd]
    norm_num [settings.CIRCADIAN_NEW_DEVICE_PENALTY, settings.CIRCADIAN_ANOMALY_PENALTY]
  · intro b d dv g v cf hno
    simp only [scoreTransactionCore]
    rw [if_neg hno]
  · intro sqrtQ havQ inp history profile ipRot recentRows hourRows identRows f hf
    rcases history with e | histRows
    · simp [riskEngineBehavCall, behavioralCompute] at hf
    rcases profile with e | profRows
    · simp [riskEngineBehavCall, behavioralCompute] at hf
    simp only [riskEngineBehavCall, behavioralCompute, Except.ok.injEq] at hf
    subst hf
    rcases hourRows with e | rows
    · simpa [behavioralComputeCore] using h0
    · simp only [behavioralComputeCore]
      split_ifs <;>
        first
          | (simpa using h20)
          | (simpa using h0)
          | simp_all

/-- C8 (witness): the boost theorem applied with a circadian anomaly, a new
device, and behavioural sub-score 50: the fused behavioural input becomes
`min (50+15) 100 = 65`. -/
theorem c8_witness :
    (scoreTransactionCore { circadian_anomaly := true, risk := 50 } {}
      { new_device_flag := true } {} {} []).sBehavioral = min (50 + 15) 100 :=
  c8_compound_boost.2.1 { circadian_anomaly := true, risk := 50 } {}
    { new_device_flag := true } {} {} [] rfl rfl

/-! ## C9 — night-window boundary behaviour -/

/-- C9: the behavioural night flag fires exactly for hours in
`[NIGHT_START..23] ∪ [0..NIGHT_END]`, both ends inclusive — in particular at
`NIGHT_END_HOUR` itself — and a set night flag adds exactly 5 to the
pre-clamp behavioural risk sum; `compute` wires the flag from the
transaction hour. -/
theorem c9_night_window (h : ℕ) (hh : h ≤ 23) :
    (nightFlag h = true
      ↔ ((settings.NIGHT_START_HOUR ≤ h ∧ h ≤ 23) ∨ h ≤ settings.NIGHT_END_HOUR))
    ∧ nightFlag settings.NIGHT_END_HOUR = true
    ∧ (∀ s : BehavSignals, behavioralRiskRaw { s with night_flag := true }
        = behavioralRiskRaw { s with night_flag := false } + 5)
    ∧ (∀ (sqrtQ : ℚ → ℚ) (havQ : ℚ → ℚ → ℚ → ℚ → ℚ) (inp : BehavInputs)
        (hist : List HistRow) (prof : List ProfileRow)
        (ipRot : Except Unit (List IpRotRow)) (recentRows : Except Unit (List AmtRow))
        (hourRows : Except Unit (List HourRow))
        (identRows : Except Unit (List IdentRow)),
        (behavioralComputeCore sqrtQ havQ inp hist prof ipRot recentRows hourRows
          identRows).is_night = nightFlag inp.hour) := by
  refine ⟨?_, by decide, ?_, ?_⟩
  · rw [nightFlag, Bool.or_eq_true, decide_eq_true_iff, decide_eq_true_iff]
    constructor
    · rintro (h1 | h1)
      · exact Or.inl ⟨h1, hh⟩
      · exact Or.inr h1
    · rintro (⟨h1, _⟩ | h1)
      · exact Or.inl h1
      · exact Or.inr h1
  · intro s
    simp [behavioralRiskRaw]
    ring
  · intro sqrtQ havQ inp hist prof ipRot recentRows hourRows identRows
    rfl

/-- C9 (witness): the night-window theorem at the `NIGHT_END_HOUR` boundary
hour 5, which does trigger the flag. -/
theorem c9_witness :
    (nightFlag 5 = true
      ↔ ((settings.NIGHT_START_HOUR ≤ 5 ∧ 5 ≤ 23) ∨ 5 ≤ settings.NIGHT_END_HOUR))
    ∧ nightFlag settings.NIGHT_END_HOUR = true :=
  ⟨(c9_night_window 5 (by norm_num)).1, (c9_night_window 5 (by norm_num)).2.1⟩

/-! ## C10 — stream-adapter per-message failure handling -/

/-- C10: every per-message failure in the adapter — decode, schema
validation, or republish — increments the same single error counter,
acknowledges the message on the raw log (so it is never redelivered), and
does not publish it to the processing log; a fully successful message is
published, acknowledged and counted as forwarded. -/
theorem c10_adapter_failures (o : AdapterMsgOutcome) :
    (¬(o.decodeOk = true ∧ o.schemaValid = true ∧ o.publishOk = true) →
      adapterHandleMessage o
        = { validationErrorsDelta := 1, forwardedDelta := 0, acked := true,
            published := false })
    ∧ (adapterHandleMessage o).acked = true
    ∧ (o.decodeOk = true → o.schemaValid = true → o.publishOk = true →
        adapterHandleMessage o
          = { validationErrorsDelta := 0, forwardedDelta := 1, acked := true,
              published := true }) := by
  obtain ⟨d, s, p⟩ := o
  cases d <;> cases s <;> cases p <;> simp [adapterHandleMessage]

/-- C10 (witness): a schema-validation failure and a republish failure both
yield the same effects — one error counted, acked, not published. -/
theorem c10_witness :
    adapterHandleMessage { schemaValid := false }
      = { validationErrorsDelta := 1, forwardedDelta := 0, acked := true,
          published := false }
    ∧ adapterHandleMessage { publishOk := false }
      = { validationErrorsDelta := 1, forwardedDelta := 0, acked := true,
          published := false } :=
  ⟨(c10_adapter_failures { schemaValid := false }).1 (by simp),
    (c10_adapter_failures { publishOk := false }).1 (by simp)⟩

end Fraud
